import Mathlib

/-!
Shallow embedding of the rogue-gym core (rust crate rogue-gym-core) covering
the coordinate algebra (src/dungeon/coord.rs), the error chain (src/error.rs,
src/lib.rs), the item subsystem (src/item/mod.rs), and the configuration /
runtime builder (src/lib.rs).

Machine-integer conventions: the Rust code uses i32 for coordinates and u32
for item ids / quantities.  Rust integer arithmetic aborts the program on
overflow (debug assertions; overflow is a program error in Rust), so the
embedding models these as unbounded Int / Nat: the model covers every
non-aborting execution.

The BTreeMap containers are modelled as association lists whose insert
replaces the value at an existing key; only lookup / insert / size are used
by the code under study, so key ordering is unobservable.
-/

namespace RogueGym

/-! ### Coordinate algebra (src/dungeon/coord.rs) -/

/-- X is the newtype for horizontal screen coordinates (i32 in the source). -/
structure X where
  val : Int
deriving DecidableEq, Repr

/-- Y is the newtype for vertical screen coordinates (i32 in the source). -/
structure Y where
  val : Int
deriving DecidableEq, Repr

/-- Coord is a pair of an X and a Y coordinate. -/
structure Coord where
  x : X
  y : Y
deriving DecidableEq, Repr

/-- Componentwise addition of coordinates (the derived Add on Coord). -/
def Coord.add (a b : Coord) : Coord :=
  ⟨⟨a.x.val + b.x.val⟩, ⟨a.y.val + b.y.val⟩⟩

/-- The nine movement directions of Direction in coord.rs. -/
inductive Direction where
  | Up
  | Down
  | Left
  | Right
  | LeftUp
  | RightUp
  | LeftDown
  | RightDown
  | Stay
deriving DecidableEq, Repr

/-- Direction::to_cd maps a direction to its unit coordinate delta. -/
def Direction.to_cd : Direction → Coord
  | .Up => ⟨⟨0⟩, ⟨-1⟩⟩
  | .Down => ⟨⟨0⟩, ⟨1⟩⟩
  | .Left => ⟨⟨-1⟩, ⟨0⟩⟩
  | .Right => ⟨⟨1⟩, ⟨0⟩⟩
  | .LeftUp => ⟨⟨-1⟩, ⟨-1⟩⟩
  | .RightUp => ⟨⟨1⟩, ⟨-1⟩⟩
  | .LeftDown => ⟨⟨-1⟩, ⟨1⟩⟩
  | .RightDown => ⟨⟨1⟩, ⟨1⟩⟩
  | .Stay => ⟨⟨0⟩, ⟨0⟩⟩

/-- DirectionIterEndless is the state of the endless direction iterator. -/
structure DirectionIterEndless where
  cur : Coord
  dir : Direction
deriving Repr

/-- Coord::endless_iter builds the endless iterator starting at self. -/
def Coord.endless_iter (self : Coord) (dir : Direction) : DirectionIterEndless :=
  ⟨self, dir⟩

/-- Iterator::next for DirectionIterEndless: yields the current coordinate
and advances by the direction delta.  It never returns None. -/
def DirectionIterEndless.next (it : DirectionIterEndless) :
    Coord × DirectionIterEndless :=
  (it.cur, ⟨it.cur.add it.dir.to_cd, it.dir⟩)

/-- The nth element (0-based) produced by the endless iterator. -/
def DirectionIterEndless.nth (it : DirectionIterEndless) : Nat → Coord
  | 0 => it.next.1
  | n + 1 => it.next.2.nth n

/-! ### Error chain (src/error.rs plus the InvalidSetting variant used by
src/lib.rs).  The Index and Input payloads (IndexError, Key) play no role in
the code under study and are elided from the variants. -/

/-- ErrorId is the closed error taxonomy.  src/error.rs declares Index,
Input, IncompleteInput and LogicError; src/lib.rs additionally uses
ErrorId::InvalidSetting for configuration bounds violations. -/
inductive ErrorId where
  | Index
  | Input
  | IncompleteInput
  | InvalidSetting
  | LogicError
deriving DecidableEq, Repr

/-- GameError models error_chain_mini's ChainedError: an error kind plus the
chain of human-readable context strings, innermost first. -/
structure GameError where
  kind : ErrorId
  contexts : List String
deriving DecidableEq, Repr

/-- ErrorKind::into_with wraps a kind with one context string. -/
def ErrorId.into_with (k : ErrorId) (c : String) : GameError :=
  ⟨k, [c]⟩

/-- ResultExt::chain_err adds an outer context string to a chained error. -/
def GameError.chain_err (e : GameError) (c : String) : GameError :=
  ⟨e.kind, e.contexts ++ [c]⟩

/-! ### Association-list model of BTreeMap -/

/-- Lookup in the association-list model of BTreeMap (BTreeMap::get). -/
def alistGet {α β : Type} [DecidableEq α] (k : α) : List (α × β) → Option β
  | [] => none
  | (k', v) :: rest => if k = k' then some v else alistGet k rest

/-- Insert in the association-list model of BTreeMap (BTreeMap::insert):
replaces the value at an existing key, otherwise appends the new entry. -/
def alistInsert {α β : Type} [DecidableEq α] (k : α) (v : β) :
    List (α × β) → List (α × β)
  | [] => [(k, v)]
  | (k', v') :: rest =>
    if k = k' then (k, v) :: rest else (k', v') :: alistInsert k v rest

/-! ### Item subsystem (src/item/mod.rs) -/

/-- ItemKind is the closed set of item category tags. -/
inductive ItemKind where
  | Armor
  | Custom
  | Gold
  | Potion
  | Ring
  | Scroll
  | Stick
  | Weapon
deriving DecidableEq, Repr

/-- ItemNum is the u32 item quantity newtype. -/
structure ItemNum where
  val : Nat
deriving DecidableEq, Repr

/-- ItemAttr is the u32 bit-flag set of item attributes. -/
structure ItemAttr where
  bits : Nat
deriving DecidableEq, Repr

/-- ItemAttr::empty, the empty flag set. -/
def ItemAttr.empty : ItemAttr := ⟨0⟩

/-- The IS_CURSED flag (bit 0). -/
def ItemAttr.IS_CURSED : ItemAttr := ⟨1⟩

/-- The CAN_THROW flag (bit 1). -/
def ItemAttr.CAN_THROW : ItemAttr := ⟨2⟩

/-- The IS_MANY (stackable) flag (bit 2). -/
def ItemAttr.IS_MANY : ItemAttr := ⟨4⟩

/-- Bitwise union of two attribute sets (the BitOr of bitflags). -/
def ItemAttr.union (a b : ItemAttr) : ItemAttr :=
  ⟨a.bits ||| b.bits⟩

/-- Whether an attribute set has every flag of another set. -/
def ItemAttr.contains (a f : ItemAttr) : Bool :=
  a.bits &&& f.bits == f.bits

/-- ItemId is the u32 item identifier newtype of src/item/mod.rs. -/
structure ItemId where
  val : Nat
deriving DecidableEq, Repr

/-- ItemId::increment adds one to the id (u32 addition; overflow aborts and
is outside the model, see the header note). -/
def ItemId.increment (id : ItemId) : ItemId :=
  ⟨id.val + 1⟩

/-- Item is a kind together with a quantity and an attribute set. -/
structure Item where
  kind : ItemKind
  how_many : ItemNum
  attr : ItemAttr
deriving DecidableEq, Repr

/-- ItemKind::numbered constructs an item from a quantity with the default
attribute set of the kind.  The source aborts with unimplemented! for every
kind other than Gold; the abort is modelled as none. -/
def ItemKind.numbered (self : ItemKind) (num : ItemNum) : Option Item :=
  match self with
  | ItemKind.Gold => some ⟨ItemKind.Gold, num, ItemAttr.empty⟩
  | _ => none

/-- Tile is the u8 tile-glyph newtype of src/lib.rs. -/
structure Tile where
  byte : Nat
deriving DecidableEq, Repr

/-- Drawable::tile for ItemKind: Gold draws as b'*' (42) and Weapon as
b')' (41); every other kind aborts with unimplemented!, modelled as none. -/
def ItemKind.tile : ItemKind → Option Tile
  | ItemKind.Gold => some ⟨42⟩
  | ItemKind.Weapon => some ⟨41⟩
  | _ => none

/-- Item::merge: combines quantities by addition and attributes by the
supplied combinator, or by bitwise union when none is supplied.  The kind of
the result is the left operand's kind; the kinds are never compared. -/
def Item.merge (self other : Item)
    (attr_merger : Option (ItemAttr → ItemAttr → ItemAttr)) : Item :=
  let attr :=
    match attr_merger with
    | some f => f self.attr other.attr
    | none => self.attr.union other.attr
  ⟨self.kind, ⟨self.how_many.val + other.how_many.val⟩, attr⟩

/-- Item::many sets the IS_MANY flag on the item. -/
def Item.many (self : Item) : Item :=
  { self with attr := self.attr.union ItemAttr.IS_MANY }

/-! ### Item handler (src/item/mod.rs) -/

/-- Modelled from the spec: rng.rs is not among the provided sources.  The
spec only requires that RngHandle::from_seed is a pure function of the seed
("the same (config, seed) pair must always yield a handler whose subsequent
generation sequence is identical"), so the handle is modelled as an abstract
deterministic state initialised from the seed. -/
structure RngHandle where
  state : Nat
deriving DecidableEq, Repr

/-- RngHandle::from_seed: deterministic construction from a seed. -/
def RngHandle.from_seed (seed : Nat) : RngHandle :=
  ⟨seed⟩

/-- Modelled from the spec: src/item/gold.rs is not among the provided
sources.  The spec describes the gold policy as "keyed by dungeon level and
driven by the handler's private RNG stream", deciding "whether gold spawns
and in what quantity"; it is modelled as an arbitrary deterministic function
from the RNG state and the level to an optional quantity together with the
advanced RNG state. -/
structure GoldConfig where
  gen : RngHandle → Nat → Option ItemNum × RngHandle

/-- ItemConfig holds the per-kind generation configuration (currently only
gold). -/
structure ItemConfig where
  gold : GoldConfig

/-- Modelled from the spec: path.rs is not among the provided sources.  A
DungeonPath is "an addressable location within the generated world, used as
a key for item placement"; it is modelled as a list of integer coordinates,
which supports the decidable equality the placement map needs. -/
structure DungeonPath where
  path : List Int
deriving DecidableEq, Repr

/-- ItemHandler: the item registry (ItemId to Item), the placement index
(DungeonPath to ItemId), the item configuration, the private RNG stream and
the next id to issue. -/
structure ItemHandler where
  items : List (ItemId × Item)
  placed_items : List (DungeonPath × ItemId)
  config : ItemConfig
  rng : RngHandle
  next_id : ItemId

/-- ItemHandler::new: empty registry and placement index, RNG seeded from
the given seed, ids starting at 0. -/
def ItemHandler.new (config : ItemConfig) (seed : Nat) : ItemHandler :=
  ⟨[], [], config, RngHandle.from_seed seed, ⟨0⟩⟩

/-- ItemHandler::get_ref: look up the id placed at a dungeon path, then the
item registered under that id. -/
def ItemHandler.get_ref (self : ItemHandler) (path : DungeonPath) :
    Option Item :=
  (alistGet path self.placed_items).bind fun id => alistGet id self.items

/-- ItemHandler::gen_item: run the factory, register the produced item under
the current next id, increment the next id and return the issued id. -/
def ItemHandler.gen_item (self : ItemHandler) (itemgen : Unit → Item) :
    ItemId × ItemHandler :=
  let item := itemgen ()
  let id := self.next_id
  (id, { self with
          items := alistInsert id item self.items,
          next_id := id.increment })

/-- ItemHandler::place_item: record (or overwrite) the occupant of a path. -/
def ItemHandler.place_item (self : ItemHandler) (place : DungeonPath)
    (id : ItemId) : ItemHandler :=
  { self with placed_items := alistInsert place id self.placed_items }

/-- ItemHandler::setup_gold: consult the gold policy with the private RNG
and the level; when it yields a quantity, generate and register a stackable
gold item, then ask the empty-cell supplier for a vacant path, chaining the
context "ItemHandler::setup_gold" onto its error, and place the item there.
When the policy declines, only the RNG advances.  The empty-cell supplier is
modelled by the result it returns; the unimplemented! abort inside
ItemKind::numbered is modelled as none (it is unreachable for Gold). -/
def ItemHandler.setup_gold (self : ItemHandler) (level : Nat)
    (empty_cell : Except GameError DungeonPath) :
    Option (Except GameError Unit × ItemHandler) :=
  match self.config.gold.gen self.rng level with
  | (some num, rng) =>
    match ItemKind.numbered ItemKind.Gold num with
    | none => none
    | some base =>
      let self := { self with rng := rng }
      let (item_id, self) := self.gen_item fun _ => base.many
      match empty_cell with
      | Except.error e =>
        some (Except.error (e.chain_err "ItemHandler::setup_gold"), self)
      | Except.ok place =>
        some (Except.ok (), self.place_item place item_id)
  | (none, rng) => some (Except.ok (), { self with rng := rng })

/-- A sequence of gen_item calls: issues one id per factory in the list and
returns the ids in order of issue together with the final handler. -/
def ItemHandler.genItems (self : ItemHandler) :
    List (Unit → Item) → List ItemId × ItemHandler
  | [] => ([], self)
  | g :: gs =>
    let (id, h) := self.gen_item g
    let (ids, h') := h.genItems gs
    (id :: ids, h')

/-- A sequence of setup_gold calls, each given by a level and the result of
its empty-cell supplier; collects the call results in order.  The none case
threads the (unreachable) modelled abort. -/
def ItemHandler.runOps (self : ItemHandler) :
    List (Nat × Except GameError DungeonPath) →
    Option (List (Except GameError Unit) × ItemHandler)
  | [] => some ([], self)
  | (level, cell) :: ops =>
    match self.setup_gold level cell with
    | none => none
    | some (r, h) =>
      match h.runOps ops with
      | none => none
      | some (rs, h') => some (r :: rs, h')

/-! ### Configuration and runtime builder (src/lib.rs) -/

/-- GameInfo: the minimal mutable game-progress record. -/
structure GameInfo where
  is_cleared : Bool
deriving DecidableEq, Repr

/-- GameInfo::new starts with the cleared flag unset. -/
def GameInfo.new : GameInfo :=
  ⟨false⟩

/-- Modelled from the spec: the dungeon module (beyond coord.rs) is not
among the provided sources; the spec treats dungeon layout generation as an
opaque DungeonStyle-driven builder, so the style carries no observable
data here. -/
structure DungeonStyle where
  mk ::
deriving DecidableEq, Repr

/-- Modelled from the spec: the dungeon instance produced by the external
builder; its internals are out of the provided core. -/
structure Dungeon where
  mk ::
deriving DecidableEq, Repr

/-- Modelled from the spec: the input module is not among the provided
sources; a KeyMap is the active input-to-action mapping and its internals
are unobservable to the code under study. -/
structure KeyMap where
  mk ::
deriving DecidableEq, Repr

/-- KeyMap::default, used when the configuration supplies no keymap. -/
def KeyMap.default : KeyMap :=
  ⟨⟩

/-- Modelled from the spec: a decoded input event (single key or composed
command); its structure is irrelevant to the stubbed reaction surface. -/
structure InputCode where
  mk ::
deriving DecidableEq, Repr

/-- ConfigInner: the resolved numeric configuration (width, height, seed). -/
structure ConfigInner where
  width : X
  height : Y
  seed : Nat
deriving DecidableEq, Repr

/-- GameConfig: the user-facing declarative configuration. -/
structure GameConfig where
  width : Int
  height : Int
  seed : Option Nat
  dungeon : DungeonStyle
  item : ItemConfig
  keymap : Option KeyMap

/-- MIN_WIDTH of src/lib.rs. -/
def MIN_WIDTH : Int := 80

/-- MAX_WIDTH of src/lib.rs (MIN_WIDTH * 2). -/
def MAX_WIDTH : Int := MIN_WIDTH * 2

/-- MIN_HEIGHT of src/lib.rs. -/
def MIN_HEIGHT : Int := 24

/-- MAX_HEIGHT of src/lib.rs (MIN_HEIGHT * 2). -/
def MAX_HEIGHT : Int := MIN_HEIGHT * 2

/-- GameConfig::to_inner: resolve the seed (the supplied one, or a value
from the process entropy source, passed here as the entropy argument), then
validate width and height fail-fast in source order.  The reason strings are
the ones src/lib.rs passes to into_with. -/
def GameConfig.to_inner (self : GameConfig) (entropy : Nat) :
    Except GameError ConfigInner :=
  let seed := self.seed.getD entropy
  if self.width < MIN_WIDTH then
    Except.error (ErrorId.InvalidSetting.into_with "screen width is too narrow")
  else if self.width > MAX_WIDTH then
    Except.error (ErrorId.InvalidSetting.into_with "screen width is too wide")
  else if self.height < MIN_HEIGHT then
    Except.error (ErrorId.InvalidSetting.into_with "screen height is too narrow")
  else if self.height > MAX_HEIGHT then
    Except.error (ErrorId.InvalidSetting.into_with "screen height is too wide")
  else
    Except.ok ⟨⟨self.width⟩, ⟨self.height⟩, seed⟩

/-- RunTime: the live session handle.  The Rc/Weak shared-cell graph is
modelled by direct ownership of the final component values. -/
structure RunTime where
  game_info : GameInfo
  config : ConfigInner
  dungeon : Dungeon
  item : ItemHandler
  keymap : KeyMap

/-- The components of the ownership graph, used to record construction
order during GameConfig::build. -/
inductive Component where
  | gameInfo
  | itemHandler
  | dungeon
deriving DecidableEq, Repr

/-- The external dungeon builder (DungeonStyle::build): receives the shared
handles (config, item handler, game info) and the seed, may populate items
and game info, and returns the dungeon with the updated shared state, or an
error. -/
def DungeonBuilder : Type :=
  DungeonStyle → ConfigInner → ItemHandler → GameInfo → Nat →
    Except GameError (Dungeon × ItemHandler × GameInfo)

/-- GameConfig::build, following the source statement order: construct the
game-info cell, resolve and validate the configuration (errors are chained
with "[GameConfig::build]"), construct the item handler from the item config
and the resolved seed, delegate to the dungeon builder (errors chained the
same way), resolve the keymap, and assemble the runtime.  The second result
component records which components of the ownership graph were constructed,
in order. -/
def GameConfig.build (self : GameConfig) (entropy : Nat)
    (dungeon_builder : DungeonBuilder) :
    Except GameError RunTime × List Component :=
  let game_info := GameInfo.new
  let trace := [Component.gameInfo]
  match self.to_inner entropy with
  | Except.error e =>
    (Except.error (e.chain_err "[GameConfig::build]"), trace)
  | Except.ok config =>
    let item := ItemHandler.new self.item config.seed
    let trace := trace ++ [Component.itemHandler]
    match dungeon_builder self.dungeon config item game_info config.seed with
    | Except.error e =>
      (Except.error (e.chain_err "[GameConfig::build]"), trace)
    | Except.ok (dungeon, item, game_info) =>
      let keymap := self.keymap.getD KeyMap.default
      (Except.ok ⟨game_info, config, dungeon, item, keymap⟩,
        trace ++ [Component.dungeon])

/-- RunTime::react_to_input: the source body is just Ok(()); the receiver is
taken by mutable reference, so the embedding returns the (unchanged) state
it was given. -/
def RunTime.react_to_input (self : RunTime) (input : InputCode) :
    Except GameError Unit × RunTime :=
  (Except.ok (), self)

/-- Reaction: the per-turn output declared in src/lib.rs (never populated by
the stubbed react_to_input). -/
inductive Reaction where
  | Redraw (buffer : List (List Nat))
  | Notify

/-! ### Shared concrete fixtures and statement helpers -/

/-- Whether an Except result is a success. -/
def isOkResult {α : Type} : Except GameError α → Bool
  | Except.ok _ => true
  | Except.error _ => false

/-- A gold policy that always spawns a quantity of 2 and leaves the RNG
state unchanged. -/
def goldTwo : GoldConfig :=
  ⟨fun rng _ => (some ⟨2⟩, rng)⟩

/-- An item configuration using the always-spawning gold policy. -/
def itemCfg0 : ItemConfig :=
  ⟨goldTwo⟩

/-- A fresh handler over itemCfg0 with seed 0. -/
def hGold : ItemHandler :=
  ItemHandler.new itemCfg0 0

/-- A concrete supplier failure: the level has no free cell. -/
def errNoCell : GameError :=
  ⟨ErrorId.LogicError, ["no empty cell"]⟩

/-- A dungeon builder that succeeds without touching the shared state. -/
def bld0 : DungeonBuilder :=
  fun _ _ item info _ => Except.ok (⟨⟩, item, info)

/-- A configuration whose width 40 is below the minimum. -/
def cfg40 : GameConfig :=
  ⟨40, 24, some 0, ⟨⟩, itemCfg0, none⟩

/-- A configuration whose height 10 is below the minimum (width is valid). -/
def cfgShort : GameConfig :=
  ⟨80, 10, some 0, ⟨⟩, itemCfg0, none⟩

/-- A fully valid configuration with an explicit seed. -/
def cfgOk : GameConfig :=
  ⟨80, 24, some 0, ⟨⟩, itemCfg0, none⟩

/-- The stackable gold item setup_gold synthesizes for a quantity. -/
def goldSpawnItem (num : ItemNum) : Item :=
  Item.many ⟨ItemKind.Gold, num, ItemAttr.empty⟩

/-- The handler state after a successful setup_gold spawn that consumed the
RNG to rng', registered the gold item under the next id and placed it at p. -/
def goldPlacedHandler (h : ItemHandler) (num : ItemNum) (rng' : RngHandle)
    (p : DungeonPath) : ItemHandler :=
  { h with
      rng := rng',
      items := alistInsert h.next_id (goldSpawnItem num) h.items,
      placed_items := alistInsert p h.next_id h.placed_items,
      next_id := h.next_id.increment }

/-! ### Helper lemmas about the association-list map -/

/-- Lookup after insert: the inserted key maps to the new value, every other
key is unaffected. -/
theorem alistGet_insert {α β : Type} [DecidableEq α] (k k' : α) (v : β)
    (m : List (α × β)) :
    alistGet k (alistInsert k' v m) =
      if k = k' then some v else alistGet k m := by
  induction m with
  | nil => by_cases h : k = k' <;> simp [alistInsert, alistGet, h]
  | cons p rest ih =>
    obtain ⟨a, b⟩ := p
    simp only [alistInsert]
    by_cases h1 : k' = a
    · subst h1
      simp only [if_pos rfl, alistGet]
      by_cases h2 : k = k' <;> simp [h2]
    · simp only [if_neg h1, alistGet]
      by_cases h2 : k = a
      · subst h2
        have h3 : ¬k = k' := fun h => h1 h.symm
        simp [h3]
      · simp [h2, ih]

/-- Inserting at a key absent from the map grows it by one entry. -/
theorem alistInsert_length_of_fresh {α β : Type} [DecidableEq α] (k : α)
    (v : β) (m : List (α × β)) (h : alistGet k m = none) :
    (alistInsert k v m).length = m.length + 1 := by
  induction m with
  | nil => simp [alistInsert]
  | cons p rest ih =>
    obtain ⟨a, b⟩ := p
    simp only [alistGet] at h
    by_cases h1 : k = a
    · simp [h1] at h
    · simp only [if_neg h1] at h
      simp [alistInsert, h1, ih h]

/-- Insertion preserves the presence of every key. -/
theorem alistGet_isSome_insert {α β : Type} [DecidableEq α] (k k' : α)
    (v : β) (m : List (α × β)) (h : (alistGet k m).isSome) :
    (alistGet k (alistInsert k' v m)).isSome := by
  rw [alistGet_insert]
  by_cases h2 : k = k' <;> simp [h2, h]

/-! ### Claim theorems -/

/-- Claim C8: for every start coordinate s, direction d and natural N, the
Nth element (0-based) of Coord::endless_iter(s, d) is s + N * to_cd(d),
componentwise; in particular element 0 is s itself. -/
theorem endless_iter_nth (s : Coord) (d : Direction) (n : Nat) :
    (s.endless_iter d).nth n =
      ⟨⟨s.x.val + n * d.to_cd.x.val⟩, ⟨s.y.val + n * d.to_cd.y.val⟩⟩
    ∧ (s.endless_iter d).nth 0 = s := by
  constructor
  · induction n generalizing s with
    | zero =>
      simp [Coord.endless_iter, DirectionIterEndless.nth,
        DirectionIterEndless.next]
    | succ n ih =>
      have h1 : (s.endless_iter d).nth (n + 1) =
          ((s.add d.to_cd).endless_iter d).nth n := rfl
      rw [h1, ih (s.add d.to_cd)]
      simp only [Coord.add, Coord.mk.injEq, X.mk.injEq, Y.mk.injEq]
      constructor <;> push_cast <;> ring
  · rfl

/-- Claim C9: RunTime::react_to_input in the base module is a stub: it
returns Ok(()) for every input and leaves the runtime state unchanged. -/
theorem react_to_input_stub (rt : RunTime) (i : InputCode) :
    rt.react_to_input i = (Except.ok (), rt) :=
  rfl

/-- Claim C10: Item::merge never compares the two kinds: for all items, the
result keeps the left operand's kind, adds the quantities, and combines the
attribute sets by bitwise union, or by the custom combinator when one is
supplied. -/
theorem item_merge_no_kind_check (a b : Item)
    (f : ItemAttr → ItemAttr → ItemAttr) :
    a.merge b none =
      ⟨a.kind, ⟨a.how_many.val + b.how_many.val⟩, a.attr.union b.attr⟩
    ∧ a.merge b (some f) =
      ⟨a.kind, ⟨a.how_many.val + b.how_many.val⟩, f a.attr b.attr⟩ :=
  ⟨rfl, rfl⟩

/-- Claim C4 (counterexample): the claim says that for every kind other than
Gold the tile lookup is a not-yet-implemented stub, but ItemKind::Weapon has
a defined tile, b')' (41). -/
theorem weapon_tile_defined :
    ItemKind.tile ItemKind.Weapon = some ⟨41⟩
    ∧ ItemKind.Weapon ≠ ItemKind.Gold :=
  ⟨rfl, by decide⟩

/-- Claim C4 (amended): numbered is defined exactly for Gold (with the empty
default attribute set), tile exactly for Gold (b'*') and Weapon (b')');
every other case of either operation is a not-yet-implemented abort, so for
Gold the abort branches of both operations are unreachable. -/
theorem itemkind_gold_weapon_support (k : ItemKind) (n : ItemNum) :
    ((k.numbered n).isSome ↔ k = ItemKind.Gold)
    ∧ ((ItemKind.tile k).isSome ↔
        (k = ItemKind.Gold ∨ k = ItemKind.Weapon))
    ∧ ItemKind.numbered ItemKind.Gold n =
        some ⟨ItemKind.Gold, n, ItemAttr.empty⟩
    ∧ ItemKind.tile ItemKind.Gold = some ⟨42⟩
    ∧ ItemKind.tile ItemKind.Weapon = some ⟨41⟩ := by
  refine ⟨?_, ?_, rfl, rfl, rfl⟩ <;>
    cases k <;> simp [ItemKind.numbered, ItemKind.tile]

/-- Witness for C4: both operations evaluated at Gold on a concrete
quantity. -/
theorem itemkind_gold_weapon_support_witness :
    ItemKind.numbered ItemKind.Gold ⟨7⟩ =
        some ⟨ItemKind.Gold, ⟨7⟩, ItemAttr.empty⟩
    ∧ ItemKind.tile ItemKind.Gold = some ⟨42⟩ :=
  ⟨(itemkind_gold_weapon_support ItemKind.Gold ⟨7⟩).2.2.1,
   (itemkind_gold_weapon_support ItemKind.Gold ⟨7⟩).2.2.2.1⟩

/-- Claim C2 (counterexample): for height 10 (width valid) the validation
error message is "screen height is too narrow", not a message containing
"too short" as the claim states. -/
theorem height_error_not_too_short :
    cfgShort.to_inner 0 =
      Except.error ⟨ErrorId.InvalidSetting, ["screen height is too narrow"]⟩
    ∧ ¬ ("too short".toList <:+: "screen height is too narrow".toList) := by
  refine ⟨rfl, by decide⟩

/-- Claim C2 (amended): to_inner fails exactly when width is outside
[80, 160] or height outside [24, 48]; the checks run fail-fast in source
order; the errors are InvalidSetting with reasons "screen width is too
narrow" / "screen width is too wide" for width and "screen height is too
narrow" / "screen height is too wide" for height (the source reuses
narrow/wide for height); every in-bounds pair passes. -/
theorem to_inner_validation (cfg : GameConfig) (entropy : Nat) :
    (isOkResult (cfg.to_inner entropy) = true ↔
      (MIN_WIDTH ≤ cfg.width ∧ cfg.width ≤ MAX_WIDTH ∧
        MIN_HEIGHT ≤ cfg.height ∧ cfg.height ≤ MAX_HEIGHT))
    ∧ (cfg.width < MIN_WIDTH →
        cfg.to_inner entropy =
          Except.error ⟨ErrorId.InvalidSetting, ["screen width is too narrow"]⟩)
    ∧ (MIN_WIDTH ≤ cfg.width → MAX_WIDTH < cfg.width →
        cfg.to_inner entropy =
          Except.error ⟨ErrorId.InvalidSetting, ["screen width is too wide"]⟩)
    ∧ (MIN_WIDTH ≤ cfg.width → cfg.width ≤ MAX_WIDTH →
        cfg.height < MIN_HEIGHT →
        cfg.to_inner entropy =
          Except.error ⟨ErrorId.InvalidSetting, ["screen height is too narrow"]⟩)
    ∧ (MIN_WIDTH ≤ cfg.width → cfg.width ≤ MAX_WIDTH →
        MIN_HEIGHT ≤ cfg.height → MAX_HEIGHT < cfg.height →
        cfg.to_inner entropy =
          Except.error ⟨ErrorId.InvalidSetting, ["screen height is too wide"]⟩)
    ∧ (MIN_WIDTH ≤ cfg.width → cfg.width ≤ MAX_WIDTH →
        MIN_HEIGHT ≤ cfg.height → cfg.height ≤ MAX_HEIGHT →
        cfg.to_inner entropy =
          Except.ok ⟨⟨cfg.width⟩, ⟨cfg.height⟩, cfg.seed.getD entropy⟩) := by
  simp only [GameConfig.to_inner, ErrorId.into_with]
  split_ifs with h1 h2 h3 h4 <;>
    refine ⟨?_, ?_, ?_, ?_, ?_, ?_⟩ <;>
    simp_all [isOkResult]

/-- Witness for C2: the amended theorem applied at the valid default-like
configuration, whose validation succeeds and resolves the supplied seed. -/
theorem to_inner_validation_witness :
    cfgOk.to_inner 0 = Except.ok ⟨⟨80⟩, ⟨24⟩, 0⟩ :=
  (to_inner_validation cfgOk 0).2.2.2.2.2
    (by decide) (by decide) (by decide) (by decide)

/-- Claim C3 (counterexample): building a width-40 configuration fails with
the "too narrow" setting error, but the game-info cell has already been
constructed when the failure occurs, contradicting the claim that failure
precedes every component of the ownership graph. -/
theorem build_width40_constructs_game_info :
    (cfg40.build 0 bld0).1 =
      Except.error ⟨ErrorId.InvalidSetting,
        ["screen width is too narrow", "[GameConfig::build]"]⟩
    ∧ Component.gameInfo ∈ (cfg40.build 0 bld0).2 := by
  constructor
  · rfl
  · have h : (cfg40.build 0 bld0).2 = [Component.gameInfo] := rfl
    rw [h]
    simp

/-- Claim C3 (amended): for every configuration with width 40, build fails
with an InvalidSetting error whose reason is "screen width is too narrow"
chained with the build context, and at that point only the game-info cell
has been constructed: the item handler and the dungeon have not (for any
dungeon builder whatsoever). -/
theorem build_width40_fails_early (cfg : GameConfig) (entropy : Nat)
    (b : DungeonBuilder) (hw : cfg.width = 40) :
    (cfg.build entropy b).1 =
      Except.error ⟨ErrorId.InvalidSetting,
        ["screen width is too narrow", "[GameConfig::build]"]⟩
    ∧ (cfg.build entropy b).2 = [Component.gameInfo] := by
  have hti : cfg.to_inner entropy =
      Except.error ⟨ErrorId.InvalidSetting, ["screen width is too narrow"]⟩ := by
    have h40 : cfg.width < MIN_WIDTH := by rw [hw]; decide
    simp [GameConfig.to_inner, ErrorId.into_with, if_pos h40]
  constructor <;> simp [GameConfig.build, hti, GameError.chain_err]

/-- Witness for C3: the amended theorem applied to the concrete width-40
configuration with a concrete dungeon builder. -/
theorem build_width40_fails_early_witness :
    (cfg40.build 0 bld0).1 =
      Except.error ⟨ErrorId.InvalidSetting,
        ["screen width is too narrow", "[GameConfig::build]"]⟩
    ∧ (cfg40.build 0 bld0).2 = [Component.gameInfo] :=
  build_width40_fails_early cfg40 0 bld0 rfl

/-- Claim C1 (counterexample): on a fresh handler whose policy always spawns
gold, setup_gold with a failing empty-cell supplier returns the supplier's
error chained with "ItemHandler::setup_gold", yet the registry has gained
the gold entry (id 0), refuting "no item is registered in the registry". -/
theorem setup_gold_registers_despite_error :
    (hGold.setup_gold 1 (Except.error errNoCell)).map
        (fun r => (r.1, r.2.items, r.2.placed_items)) =
      some (Except.error ⟨ErrorId.LogicError,
              ["no empty cell", "ItemHandler::setup_gold"]⟩,
            [(⟨0⟩, ⟨ItemKind.Gold, ⟨2⟩, ⟨4⟩⟩)], [])
    ∧ hGold.items = [] :=
  ⟨rfl, rfl⟩

/-- Claim C1 (amended): when the gold policy decides to spawn and the
empty-cell supplier fails, setup_gold returns the supplier's error wrapped
with the context "ItemHandler::setup_gold" and records no placement, but the
call is not free of partial registration: the generated gold item has
already been registered under the (consumed) next id, the RNG has advanced,
and only the placement index is unchanged. -/
theorem setup_gold_supplier_error (h : ItemHandler) (level : Nat)
    (e : GameError) (num : ItemNum) (rng' : RngHandle)
    (hgen : h.config.gold.gen h.rng level = (some num, rng')) :
    h.setup_gold level (Except.error e) =
      some (Except.error (e.chain_err "ItemHandler::setup_gold"),
        { h with
            rng := rng',
            items := alistInsert h.next_id (goldSpawnItem num) h.items,
            next_id := h.next_id.increment }) := by
  simp [ItemHandler.setup_gold, hgen, ItemKind.numbered,
    ItemHandler.gen_item, goldSpawnItem]

/-- Witness for C1: the amended theorem applied to the concrete fresh
handler and supplier failure. -/
theorem setup_gold_supplier_error_witness :
    hGold.setup_gold 1 (Except.error errNoCell) =
      some (Except.error (errNoCell.chain_err "ItemHandler::setup_gold"),
        { hGold with
            rng := ⟨0⟩,
            items := alistInsert hGold.next_id (goldSpawnItem ⟨2⟩) hGold.items,
            next_id := hGold.next_id.increment }) :=
  setup_gold_supplier_error hGold 1 errNoCell ⟨2⟩ ⟨0⟩ rfl

/-! ### Lemmas about gen_item sequences -/

/-- Unfolding of gen_item as an explicit pair. -/
theorem gen_item_eq (h : ItemHandler) (g : Unit → Item) :
    h.gen_item g = (h.next_id,
      { h with
          items := alistInsert h.next_id (g ()) h.items,
          next_id := h.next_id.increment }) :=
  rfl

/-- First projection of genItems on a cons. -/
theorem genItems_cons_fst (h : ItemHandler) (g : Unit → Item)
    (gs : List (Unit → Item)) :
    (h.genItems (g :: gs)).1 =
      h.next_id :: (((h.gen_item g).2).genItems gs).1 :=
  rfl

/-- Second projection of genItems on a cons. -/
theorem genItems_cons_snd (h : ItemHandler) (g : Unit → Item)
    (gs : List (Unit → Item)) :
    (h.genItems (g :: gs)).2 = (((h.gen_item g).2).genItems gs).2 :=
  rfl

/-- Every id issued by a genItems run is at least the starting next id. -/
theorem genItems_lower_bound (gs : List (Unit → Item)) (h : ItemHandler) :
    ∀ id ∈ (h.genItems gs).1, h.next_id.val ≤ id.val := by
  induction gs generalizing h with
  | nil => intro id hid; simp [ItemHandler.genItems] at hid
  | cons g gs ih =>
    intro id hid
    rw [genItems_cons_fst] at hid
    rcases List.mem_cons.mp hid with h1 | h1
    · subst h1; exact Nat.le_refl _
    · have h2 := ih (h.gen_item g).2 id h1
      have h3 : ((h.gen_item g).2).next_id.val = h.next_id.val + 1 := rfl
      omega

/-- A genItems run never removes a key from the registry. -/
theorem genItems_preserves_keys (gs : List (Unit → Item)) (h : ItemHandler)
    (k : ItemId) (hk : (alistGet k h.items).isSome) :
    (alistGet k ((h.genItems gs).2).items).isSome := by
  induction gs generalizing h with
  | nil => simpa [ItemHandler.genItems] using hk
  | cons g gs ih =>
    rw [genItems_cons_snd]
    apply ih
    have h4 : ((h.gen_item g).2).items =
        alistInsert h.next_id (g ()) h.items := rfl
    rw [h4]
    exact alistGet_isSome_insert _ _ _ _ hk

/-- Claim C6: along any sequence of gen_item calls (in particular those made
by setup_gold), the issued ids are strictly increasing in order of issue,
never repeat, and every issued id is a key of the final registry. -/
theorem gen_item_ids_monotone (h : ItemHandler) (gs : List (Unit → Item)) :
    (h.genItems gs).1.Pairwise (fun a b => a.val < b.val)
    ∧ (h.genItems gs).1.Nodup
    ∧ ∀ id ∈ (h.genItems gs).1,
        (alistGet id ((h.genItems gs).2).items).isSome := by
  induction gs generalizing h with
  | nil => simp [ItemHandler.genItems]
  | cons g gs ih =>
    obtain ⟨ihp, ihn, ihr⟩ := ih (h.gen_item g).2
    have hnext : ((h.gen_item g).2).next_id.val = h.next_id.val + 1 := rfl
    refine ⟨?_, ?_, ?_⟩
    · rw [genItems_cons_fst]
      refine List.pairwise_cons.mpr ⟨?_, ihp⟩
      intro b hb
      have h2 := genItems_lower_bound gs (h.gen_item g).2 b hb
      omega
    · rw [genItems_cons_fst]
      refine List.nodup_cons.mpr ⟨?_, ihn⟩
      intro hmem
      have h2 := genItems_lower_bound gs (h.gen_item g).2 h.next_id hmem
      omega
    · intro id hid
      rw [genItems_cons_fst] at hid
      rw [genItems_cons_snd]
      rcases List.mem_cons.mp hid with h1 | h1
      · subst h1
        apply genItems_preserves_keys
        have h4 : ((h.gen_item g).2).items =
            alistInsert h.next_id (g ()) h.items := rfl
        rw [h4, alistGet_insert]
        simp
      · exact ihr id h1

/-- Claim C5: item-handler construction and the build pipeline are
deterministic: equal (config, seed) pairs driven by the same operation
sequence produce identical results, and with an explicit seed the build
result does not depend on the process entropy source. -/
theorem construction_deterministic :
    (∀ (c1 c2 : ItemConfig) (s1 s2 : Nat)
        (ops : List (Nat × Except GameError DungeonPath)),
        c1 = c2 → s1 = s2 →
        (ItemHandler.new c1 s1).runOps ops =
          (ItemHandler.new c2 s2).runOps ops)
    ∧ (∀ (cfg : GameConfig) (s : Nat) (b : DungeonBuilder) (e1 e2 : Nat),
        cfg.seed = some s → cfg.build e1 b = cfg.build e2 b) := by
  constructor
  · intro c1 c2 s1 s2 ops hc hs
    rw [hc, hs]
  · intro cfg s b e1 e2 hseed
    have h1 : cfg.to_inner e1 = cfg.to_inner e2 := by
      simp [GameConfig.to_inner, hseed]
    simp [GameConfig.build, h1]

/-- Witness for C5: determinism evaluated on a concrete handler pair and on
a concrete valid configuration with an explicit seed under two different
entropy values. -/
theorem construction_deterministic_witness :
    (ItemHandler.new itemCfg0 5).runOps [(1, Except.ok ⟨[5, 5]⟩)] =
      (ItemHandler.new itemCfg0 5).runOps [(1, Except.ok ⟨[5, 5]⟩)]
    ∧ cfgOk.build 3 bld0 = cfgOk.build 9 bld0 :=
  ⟨construction_deterministic.1 itemCfg0 itemCfg0 5 5
      [(1, Except.ok ⟨[5, 5]⟩)] rfl rfl,
   construction_deterministic.2 cfgOk 0 bld0 3 9 rfl⟩

/-- Claim C7: on a handler whose gold policy spawns a quantity at level 1
and whose next id is fresh, setup_gold with a succeeding supplier returns
success; afterwards get_ref at the supplied path yields a stackable Gold
item carrying the policy's quantity, and the registry has exactly one more
entry. -/
theorem setup_gold_success (h : ItemHandler) (num : ItemNum)
    (rng' : RngHandle) (p : DungeonPath)
    (hgen : h.config.gold.gen h.rng 1 = (some num, rng'))
    (hfresh : alistGet h.next_id h.items = none) :
    h.setup_gold 1 (Except.ok p) =
      some (Except.ok (), goldPlacedHandler h num rng' p)
    ∧ (goldPlacedHandler h num rng' p).get_ref p = some (goldSpawnItem num)
    ∧ (goldSpawnItem num).kind = ItemKind.Gold
    ∧ ItemAttr.contains (goldSpawnItem num).attr ItemAttr.IS_MANY = true
    ∧ (goldSpawnItem num).how_many = num
    ∧ (goldPlacedHandler h num rng' p).items.length =
        h.items.length + 1 := by
  refine ⟨?_, ?_, rfl, ?_, rfl, ?_⟩
  · simp [ItemHandler.setup_gold, hgen, ItemKind.numbered,
      ItemHandler.gen_item, ItemHandler.place_item, goldPlacedHandler,
      goldSpawnItem]
  · simp [ItemHandler.get_ref, goldPlacedHandler, alistGet_insert]
  · have hattr : (goldSpawnItem num).attr =
        ItemAttr.empty.union ItemAttr.IS_MANY := rfl
    rw [hattr]
    decide
  · have h4 : (goldPlacedHandler h num rng' p).items =
        alistInsert h.next_id (goldSpawnItem num) h.items := rfl
    rw [h4]
    exact alistInsert_length_of_fresh _ _ _ hfresh

/-- Witness for C7: the scenario evaluated on the concrete fresh handler
whose policy always spawns 2 gold, with the supplier returning the path
[5, 5]. -/
theorem setup_gold_success_witness :
    hGold.setup_gold 1 (Except.ok ⟨[5, 5]⟩) =
      some (Except.ok (), goldPlacedHandler hGold ⟨2⟩ ⟨0⟩ ⟨[5, 5]⟩)
    ∧ (goldPlacedHandler hGold ⟨2⟩ ⟨0⟩ ⟨[5, 5]⟩).get_ref ⟨[5, 5]⟩ =
        some (goldSpawnItem ⟨2⟩)
    ∧ (goldSpawnItem ⟨2⟩).kind = ItemKind.Gold
    ∧ ItemAttr.contains (goldSpawnItem ⟨2⟩).attr ItemAttr.IS_MANY = true
    ∧ (goldSpawnItem ⟨2⟩).how_many = ⟨2⟩
    ∧ (goldPlacedHandler hGold ⟨2⟩ ⟨0⟩ ⟨[5, 5]⟩).items.length =
        hGold.items.length + 1 :=
  setup_gold_success hGold ⟨2⟩ ⟨0⟩ ⟨[5, 5]⟩ rfl rfl

end RogueGym
